import Mathlib

/-!
Verification of the solar-system catalog core (`solar_system.py`).

The repository's single source file is a data catalog: `SOLAR_SYSTEM_BODIES`
(a list of body records), the derived `DEFAULT_BODIES` and `PARENT_MAP`,
a kernel manifest, and four pass-through constants.  The catalog values are
exact decimal literals, so they are embedded as rationals (`ℚ`) and every
catalog-level property is decidable.

The algorithmic components described by the specification (BodyCatalog
validation, the Kepler propagator, the fallback resolver) are not present in
the source tree; where a claim depends on them they are modelled from the
specification text, over the reals, and clearly marked as such.
-/

namespace SolarSystem

/-- A `canonical_orbit` bundle: the six Keplerian elements exactly as stored
in the catalog records of `solar_system.py`. -/
structure CanonicalOrbit where
  a : ℚ
  e : ℚ
  i : ℚ
  Omega : ℚ
  omega : ℚ
  M0 : ℚ
  deriving DecidableEq, Repr

/-- A body record of `SOLAR_SYSTEM_BODIES`.  Fields that are optional in the
Python dictionaries (`canonical_orbit`, `GM`, `r_eq`, `j2`, and the
orientation data) are `Option`s; `id`, `name`, `parent` and `streamed` are
present on every record in the source. -/
structure Body where
  id : ℕ
  name : String
  parent : Option ℕ
  streamed : Bool
  canonical_orbit : Option CanonicalOrbit := none
  GM : Option ℚ := none
  r_eq : Option ℚ := none
  j2 : Option ℚ := none
  orientation_quat : Option (List ℚ) := none
  pole_ra : Option (List ℚ) := none
  pole_dec : Option (List ℚ) := none
  pm : Option (List ℚ) := none
  deriving DecidableEq, Repr

/-- The catalog `SOLAR_SYSTEM_BODIES` of `solar_system.py`, record by record
and in source order. -/
def SOLAR_SYSTEM_BODIES : List Body := [
  { id := 0, name := "Solar System Barycenter", parent := none,
    streamed := false },
  { id := 10, name := "Sun", parent := some 0, streamed := true },
  { id := 1, name := "Mercury Barycenter", parent := some 0, streamed := true,
    canonical_orbit := some { a := 57909050.0, e := 0.2056, i := 7.005, Omega := 48.331, omega := 29.124, M0 := 174.796 } },
  { id := 2, name := "Venus Barycenter", parent := some 0, streamed := true,
    canonical_orbit := some { a := 108208000.0, e := 0.0067, i := 3.3947, Omega := 76.680, omega := 54.884, M0 := 50.416 } },
  { id := 3, name := "Earth Barycenter", parent := some 0, streamed := true,
    canonical_orbit := some { a := 149598023.0, e := 0.0167, i := 0.000, Omega := -11.26064, omega := 114.20783, M0 := 358.617 } },
  { id := 4, name := "Mars Barycenter", parent := some 0, streamed := true,
    canonical_orbit := some { a := 227939200.0, e := 0.0935, i := 1.850, Omega := 49.558, omega := 286.502, M0 := 19.373 } },
  { id := 5, name := "Jupiter Barycenter", parent := some 0, streamed := true,
    canonical_orbit := some { a := 778570000.0, e := 0.0489, i := 1.303, Omega := 100.464, omega := 273.867, M0 := 20.020 } },
  { id := 6, name := "Saturn Barycenter", parent := some 0, streamed := true,
    canonical_orbit := some { a := 1433530000.0, e := 0.0565, i := 2.485, Omega := 113.665, omega := 339.392, M0 := 317.020 } },
  { id := 7, name := "Uranus Barycenter", parent := some 0, streamed := true,
    canonical_orbit := some { a := 2875040000.0, e := 0.0463, i := 0.773, Omega := 74.006, omega := 96.998, M0 := 142.2386 } },
  { id := 8, name := "Neptune Barycenter", parent := some 0, streamed := true,
    canonical_orbit := some { a := 4504450000.0, e := 0.0097, i := 1.770, Omega := 131.784, omega := 273.187, M0 := 256.228 } },
  { id := 9, name := "Pluto System Barycenter", parent := some 0,
    streamed := true,
    canonical_orbit := some { a := 5906440628.0, e := 0.2488, i := 17.16, Omega := 110.299, omega := 113.834, M0 := 14.53 } },
  { id := 199, name := "Mercury", parent := some 1, streamed := true,
    j2 := some 6.0e-5, r_eq := some 2439.7, GM := some 22031.86855,
    canonical_orbit := some { a := 57909050.0, e := 0.2056, i := 7.005, Omega := 48.331, omega := 29.124, M0 := 174.796 } },
  { id := 299, name := "Venus", parent := some 2, streamed := true,
    j2 := some 4.458e-6, r_eq := some 6051.8, GM := some 324858.592,
    canonical_orbit := some { a := 108208000.0, e := 0.0067, i := 3.3947, Omega := 76.680, omega := 54.884, M0 := 50.416 } },
  { id := 399, name := "Earth", parent := some 3, streamed := true,
    j2 := some 1.08262668e-3, r_eq := some 6378.1366,
    GM := some 398600.435507,
    canonical_orbit := some { a := 149598023.0, e := 0.0167, i := 0.000, Omega := -11.26064, omega := 114.20783, M0 := 358.617 } },
  { id := 499, name := "Mars", parent := some 4, streamed := true,
    j2 := some 1.96045e-3, r_eq := some 3396.19, GM := some 42828.375214,
    canonical_orbit := some { a := 227939200.0, e := 0.0935, i := 1.850, Omega := 49.558, omega := 286.502, M0 := 19.373 } },
  { id := 599, name := "Jupiter", parent := some 5, streamed := true,
    j2 := some 0.014696, r_eq := some 71492, GM := some 126686531.9,
    canonical_orbit := some { a := 778570000.0, e := 0.0489, i := 1.303, Omega := 100.464, omega := 273.867, M0 := 20.020 } },
  { id := 699, name := "Saturn", parent := some 6, streamed := true,
    j2 := some 0.016298, r_eq := some 60268, GM := some 37931207.8,
    canonical_orbit := some { a := 1433530000.0, e := 0.0565, i := 2.485, Omega := 113.665, omega := 339.392, M0 := 317.020 } },
  { id := 799, name := "Uranus", parent := some 7, streamed := true,
    GM := some 5793951.3, r_eq := some 25559.0,
    canonical_orbit := some { a := 2875040000.0, e := 0.0463, i := 0.773, Omega := 74.006, omega := 96.998, M0 := 142.2386 } },
  { id := 899, name := "Neptune", parent := some 8, streamed := true,
    GM := some 6835103.1, r_eq := some 24764.0,
    canonical_orbit := some { a := 4504450000.0, e := 0.0097, i := 1.770, Omega := 131.784, omega := 273.187, M0 := 256.228 } },
  { id := 999, name := "Pluto", parent := some 9, streamed := true,
    GM := some 869.613817, r_eq := some 1188.3,
    canonical_orbit := some { a := 5906440628.0, e := 0.2488, i := 17.16, Omega := 110.299, omega := 113.834, M0 := 14.53 } },
  { id := 301, name := "Moon", parent := some 3, streamed := true,
    GM := some 4902.800066, r_eq := some 1737.4, j2 := some 2.032e-4,
    orientation_quat := some [0.3186675622944306, 0.9240892132462319,
      0.19537822808060934, -0.0796081572162473],
    pole_ra := some [269.9949, 0.0031, 0.0],
    pole_dec := some [66.5392, 0.0130, 0.0],
    pm := some [38.3213, 13.17635815, -1.4e-12],
    canonical_orbit := some { a := 384400.0, e := 0.0549, i := 5.145, Omega := 125.08, omega := 318.15, M0 := 115.3654 } },
  { id := 401, name := "Phobos", parent := some 4, streamed := true,
    GM := some 0.0007112, r_eq := some 11.2667, j2 := some 0.0,
    orientation_quat := some [0.6308383566747584, 0.7115274160209963,
      0.3075094984340903, 0.034779482043131506],
    pole_ra := some [317.67071657, -0.10844326, 0.0],
    pole_dec := some [52.88627266, -0.06134706, 0.0],
    pm := some [35.18774440, 1128.84475928, 0.0],
    canonical_orbit := some { a := 9376.0, e := 0.0151, i := 1.075, Omega := 49.2, omega := 150.057, M0 := 177.4 } },
  { id := 402, name := "Deimos", parent := some 4, streamed := true,
    GM := some 0.0000985, r_eq := some 6.2, j2 := some 0.0,
    orientation_quat := some [0.8454450655355805, 0.42626836332308543,
      0.3119031808153065, -0.07895776965372207],
    pole_ra := some [316.65705808, -0.10518014, 0.0],
    pole_dec := some [53.50992033, -0.05979094, 0.0],
    pm := some [79.39932954, 285.16188899, 0.0],
    canonical_orbit := some { a := 23463.2, e := 0.00033, i := 1.788, Omega := 316.65, omega := 260.729, M0 := 53.2 } },
  { id := 501, name := "Io", parent := some 5, streamed := true,
    GM := some 595.6, r_eq := some 1821.6, j2 := some 0.0,
    orientation_quat := some [-0.9627925031965429, 0.15620667287302778,
      0.043054086617703644, 0.21627856288589808],
    pole_ra := some [268.05, -0.009, 0.0],
    pole_dec := some [64.50, 0.003, 0.0],
    pm := some [200.39, 203.4889538, 0.0],
    canonical_orbit := some { a := 421700.0, e := 0.0041, i := 0.036, Omega := 43.977, omega := 84.129, M0 := 171.016 } },
  { id := 502, name := "Europa", parent := some 5, streamed := true,
    GM := some 320.0, r_eq := some 1560.8, j2 := some 0.0,
    orientation_quat := some [0.2862225966304867, 0.9333206784518087,
      0.20494819207692228, -0.07060718742988059],
    pole_ra := some [268.08, -0.009, 0.0],
    pole_dec := some [64.51, 0.003, 0.0],
    pm := some [36.022, 101.3747235, 0.0],
    canonical_orbit := some { a := 671034.0, e := 0.009, i := 0.465, Omega := 219.106, omega := 88.970, M0 := 29.298 } },
  { id := 503, name := "Ganymede", parent := some 5, streamed := true,
    GM := some 988.7, r_eq := some 2634.1, j2 := some 0.0,
    orientation_quat := some [0.3518206607032618, 0.9095464313346583,
      0.2041922883141911, -0.08516467191108519],
    pole_ra := some [268.20, -0.009, 0.0],
    pole_dec := some [64.57, 0.003, 0.0],
    pm := some [44.064, 50.3176081, 0.0],
    canonical_orbit := some { a := 1070412.0, e := 0.0013, i := 0.177, Omega := 63.552, omega := 192.417, M0 := 192.417 } },
  { id := 504, name := "Callisto", parent := some 5, streamed := true,
    GM := some 717.0, r_eq := some 2410.3, j2 := some 0.0,
    orientation_quat := some [-0.7572824467695023, 0.6152217280724471,
      0.14340098285830222, 0.16571565779255987],
    pole_ra := some [268.72, -0.009, 0.0],
    pole_dec := some [64.83, 0.003, 0.0],
    pm := some [259.51, 21.5710715, 0.0],
    canonical_orbit := some { a := 1882709.0, e := 0.007, i := 0.192, Omega := 298.848, omega := 52.643, M0 := 52.643 } },
  { id := 601, name := "Mimas", parent := some 6, streamed := true,
    GM := some 2.502, r_eq := some 198.2, j2 := some 0.0,
    orientation_quat := some [0.9230995744431174, 0.38212717482503544,
      0.019096998939105683, 0.0387466457218241],
    pole_ra := some [40.66, -0.036, 0.0],
    pole_dec := some [83.52, -0.004, 0.0],
    pm := some [333.46, 381.9945550, 0.0],
    canonical_orbit := some { a := 185539.0, e := 0.0196, i := 1.574, Omega := 66.2, omega := 160.4, M0 := 275.3 } },
  { id := 602, name := "Enceladus", parent := some 6, streamed := true,
    GM := some 7.210, r_eq := some 252.1, j2 := some 0.0,
    orientation_quat := some [0.9288664636898875, 0.36607751623426327,
      0.0263856632356688, 0.049981411700848105],
    pole_ra := some [40.66, -0.036, 0.0],
    pole_dec := some [83.52, -0.004, 0.0],
    pm := some [6.32, 262.7318996, 0.0],
    canonical_orbit := some { a := 238042.0, e := 0.0047, i := 0.009, Omega := 0.0, omega := 119.5, M0 := 57.0 } },
  { id := 603, name := "Tethys", parent := some 6, streamed := true,
    GM := some 41.21, r_eq := some 531.1, j2 := some 0.0,
    orientation_quat := some [0.9318940517031924, 0.3575191144733003,
      0.03662851343840426, 0.04911121246444622],
    pole_ra := some [40.66, -0.036, 0.0],
    pole_dec := some [83.52, -0.004, 0.0],
    pm := some [8.95, 190.6979085, 0.0],
    canonical_orbit := some { a := 294672.0, e := 0.0001, i := 1.091, Omega := 273.0, omega := 335.3, M0 := 0.0 } },
  { id := 604, name := "Dione", parent := some 6, streamed := true,
    GM := some 73.116, r_eq := some 561.4, j2 := some 0.0,
    orientation_quat := some [0.8983481011005575, 0.43563326836804733,
      0.022509571322388757, 0.05184268452615175],
    pole_ra := some [40.66, -0.036, 0.0],
    pole_dec := some [83.52, -0.004, 0.0],
    pm := some [357.6, 131.5349316, 0.0],
    canonical_orbit := some { a := 377415.0, e := 0.0022, i := 0.028, Omega := 0.0, omega := 116.0, M0 := 212.0 } },
  { id := 605, name := "Rhea", parent := some 6, streamed := true,
    GM := some 153.94, r_eq := some 763.8, j2 := some 0.0,
    orientation_quat := some [0.04819756263171842, 0.9970816099735007,
      -0.03548242614950518, 0.04739467737582312],
    pole_ra := some [40.38, -0.036, 0.0],
    pole_dec := some [83.55, -0.004, 0.0],
    pm := some [235.16, 79.6900478, 0.0],
    canonical_orbit := some { a := 527108.0, e := 0.001, i := 0.345, Omega := 133.7, omega := 44.3, M0 := 31.5 } },
  { id := 606, name := "Titan", parent := some 6, streamed := true,
    GM := some 8978.0, r_eq := some 2574.7, j2 := some 0.0,
    orientation_quat := some [-0.3734396870113086, 0.9258818003502802,
      -0.05035007964612972, 0.027396376122554734],
    pole_ra := some [39.4827, 0.0, 0.0],
    pole_dec := some [83.4279, 0.0, 0.0],
    pm := some [186.5855, 22.5769768, 0.0],
    canonical_orbit := some { a := 1221870.0, e := 0.0288, i := 0.34854, Omega := 78.6, omega := 78.3, M0 := 11.7 } },
  { id := 608, name := "Iapetus", parent := some 6, streamed := true,
    GM := some 120.5, r_eq := some 734.5, j2 := some 0.0,
    orientation_quat := some [0.3662745576368781, 0.9213433421007585,
      0.11660036388932458, 0.05808398691026053],
    pole_ra := some [318.16, -3.949, 0.0],
    pole_dec := some [75.03, -1.143, 0.0],
    pm := some [355.2, 4.5379572, 0.0],
    canonical_orbit := some { a := 3560820.0, e := 0.0283, i := 15.47, Omega := 86.5, omega := 254.5, M0 := 74.8 } },
  { id := 701, name := "Ariel", parent := some 7, streamed := true,
    GM := some 86.0, r_eq := some 578.9, j2 := some 0.0,
    orientation_quat := some [0.5781932973945025, 0.191729684226664,
      0.07649565212061894, -0.7893545808070397],
    pole_ra := some [257.43, 0.0, 0.0],
    pole_dec := some [-15.10, 0.0, 0.0],
    pm := some [156.22, -142.8356681, 0.0],
    canonical_orbit := some { a := 190900.0, e := 0.001, i := 0.0, Omega := 0.0, omega := 83.3, M0 := 119.8 } },
  { id := 702, name := "Umbriel", parent := some 7, streamed := true,
    GM := some 81.5, r_eq := some 584.7, j2 := some 0.0,
    orientation_quat := some [0.4501417420706476, 0.4100905667125323,
      0.39181002197012754, -0.6896977931114213],
    pole_ra := some [257.43, 0.0, 0.0],
    pole_dec := some [-15.10, 0.0, 0.0],
    pm := some [108.05, -86.8688923, 0.0],
    canonical_orbit := some { a := 266000.0, e := 0.004, i := 0.1, Omega := 195.5, omega := 157.5, M0 := 258.3 } },
  { id := 703, name := "Titania", parent := some 7, streamed := true,
    GM := some 228.2, r_eq := some 788.9, j2 := some 0.0,
    orientation_quat := some [0.32791612117152835, 0.5142453564688234,
      0.5585107863781351, -0.5622174244234606],
    pole_ra := some [257.43, 0.0, 0.0],
    pole_dec := some [-15.10, 0.0, 0.0],
    pm := some [77.74, -41.3514316, 0.0],
    canonical_orbit := some { a := 436300.0, e := 0.001, i := 0.1, Omega := 26.4, omega := 202.0, M0 := 53.2 } },
  { id := 704, name := "Oberon", parent := some 7, streamed := true,
    GM := some 192.4, r_eq := some 761.4, j2 := some 0.0,
    orientation_quat := some [-0.03179395978929699, 0.6070279410001568,
      0.7826245002334988, -0.1341831382860504],
    pole_ra := some [257.43, 0.0, 0.0],
    pole_dec := some [-15.10, 0.0, 0.0],
    pm := some [6.77, -26.7394932, 0.0],
    canonical_orbit := some { a := 583400.0, e := 0.001, i := 0.1, Omega := 30.5, omega := 182.4, M0 := 139.7 } },
  { id := 705, name := "Miranda", parent := some 7, streamed := true,
    GM := some 4.4, r_eq := some 235.8, j2 := some 0.0,
    orientation_quat := some [0.1269439866585823, 0.5885443922397523,
      0.7482859130952207, -0.27851196541193374],
    pole_ra := some [257.43, 0.0, 0.0],
    pole_dec := some [-15.08, 0.0, 0.0],
    pm := some [30.70, -254.6906892, 0.0],
    canonical_orbit := some { a := 129900.0, e := 0.001, i := 4.4, Omega := 100.7, omega := 155.6, M0 := 72.4 } },
  { id := 801, name := "Triton", parent := some 8, streamed := true,
    GM := some 1427.6, r_eq := some 1353.4, j2 := some 0.0,
    orientation_quat := some [-0.24357406144561938, 0.78368286204414,
      0.39896516331806564, 0.4090716890567964],
    pole_ra := some [299.36, 0.0, 0.0],
    pole_dec := some [41.17, 0.0, 0.0],
    pm := some [296.53, -61.2572637, 0.0],
    canonical_orbit := some { a := 354800.0, e := 0.000, i := 157.3, Omega := 178.1, omega := 0.0, M0 := 63.0 } },
  { id := 802, name := "Proteus", parent := some 8, streamed := true,
    GM := some 0.105, r_eq := some 210, j2 := some 0.0,
    orientation_quat := some [0.8027893751159789, 0.4391895681536065,
      0.3416179806521816, -0.2143336131386546],
    canonical_orbit := some { a := 117600.0, e := 0.000, i := 0.0, Omega := 0.0, omega := 0.0, M0 := 276.8 } },
  { id := 803, name := "Nereid", parent := some 8, streamed := true,
    GM := some 0.021, r_eq := some 170, j2 := some 0.0,
    orientation_quat := some [0.0, 0.0, 0.0, 1.0],
    pole_ra := some [299.36, 0.0, 0.0],
    pole_dec := some [43.36, 0.0, 0.0],
    pm := some [254.06, 1222.8441209, 0.0],
    canonical_orbit := some { a := 5513900.0, e := 0.751, i := 5.1, Omega := 319.5, omega := 296.8, M0 := 318.5 } },
  { id := 901, name := "Charon", parent := some 9, streamed := true,
    GM := some 101.4, r_eq := some 606.0, j2 := some 0.0,
    orientation_quat := some [0.7071, 0.0, 0.7071, 0.0],
    canonical_orbit := some { a := 19591.4, e := 0.000, i := 96.145, Omega := 223.046, omega := 0.0, M0 := 0.0 } },
  { id := 902, name := "Nix", parent := some 9, streamed := true,
    GM := some 0.003, r_eq := some 25.0, j2 := some 0.0,
    orientation_quat := some [1.0, 0.0, 0.0, 0.0],
    canonical_orbit := some { a := 48694.0, e := 0.002, i := 96.2, Omega := 223.1, omega := 0.0, M0 := 0.0 } },
  { id := 903, name := "Hydra", parent := some 9, streamed := true,
    GM := some 0.005, r_eq := some 32.5, j2 := some 0.0,
    orientation_quat := some [1.0, 0.0, 0.0, 0.0],
    canonical_orbit := some { a := 64738.0, e := 0.005, i := 96.4, Omega := 223.2, omega := 0.0, M0 := 0.0 } },
  { id := 904, name := "Kerberos", parent := some 9, streamed := true,
    GM := some 0.001, r_eq := some 12.0, j2 := some 0.0,
    orientation_quat := some [1.0, 0.0, 0.0, 0.0],
    canonical_orbit := some { a := 57783.0, e := 0.003, i := 96.3, Omega := 223.15, omega := 0.0, M0 := 0.0 } },
  { id := 905, name := "Styx", parent := some 9, streamed := true,
    GM := some 0.0005, r_eq := some 8.0, j2 := some 0.0,
    orientation_quat := some [1.0, 0.0, 0.0, 0.0],
    canonical_orbit := some { a := 42656.0, e := 0.005, i := 96.1, Omega := 223.0, omega := 0.0, M0 := 0.0 } }]

/-- `DEFAULT_BODIES` of `solar_system.py`: the list comprehension keeps a
body when `body.get("parent") is not None or body.get("id") == 10` and
yields its `id`, in catalog order. -/
def DEFAULT_BODIES : List ℕ :=
  (SOLAR_SYSTEM_BODIES.filter (fun b => b.parent.isSome || b.id == 10)).map
    Body.id

/-- `PARENT_MAP` of `solar_system.py`: the `id → parent` association built
from every body whose `parent` is not `None`, in catalog order (ids are
unique, so insertion order only fixes the association list's order). -/
def PARENT_MAP : List (ℕ × ℕ) :=
  SOLAR_SYSTEM_BODIES.filterMap (fun b =>
    match b.parent with
    | some p => some (b.id, p)
    | none => none)

/-- `SECONDS_PER_DAY` of `solar_system.py`. -/
def SECONDS_PER_DAY : ℚ := 86400.0

/-- `DEFAULT_EPOCH` of `solar_system.py`. -/
def DEFAULT_EPOCH : String := "2025-05-11T00:00:00"

/-- `DEFAULT_DRAG_CUTOFF` of `solar_system.py` (the literal is `500e3`
meters). -/
def DEFAULT_DRAG_CUTOFF : ℚ := 500e3

/-- `DEFAULT_FRAME` of `solar_system.py`. -/
def DEFAULT_FRAME : String := "ECLIPJ2000"

/-- True when some catalog record carries the given id. -/
def idExists (p : ℕ) : Bool :=
  SOLAR_SYSTEM_BODIES.any (fun b => b.id == p)

/-- Modelled from the spec: `HierarchyIndex.parent_of(id) -> id?` (the
function itself is not in the source tree); it is the lookup in the
source's `PARENT_MAP`. -/
def parent_of (i : ℕ) : Option ℕ :=
  (PARENT_MAP.find? (fun kv => kv.1 == i)).map (fun kv => kv.2)

/-- Modelled from the spec: `BodyCatalog.root()` (not in the source tree)
selects the records with no parent; the spec promises exactly one. -/
def rootRecords : List Body :=
  SOLAR_SYSTEM_BODIES.filter (fun b => b.parent.isNone)

/-- Modelled from the spec: `HierarchyIndex.ancestors` (not in the source
tree) follows parent links; here the walk starts at a body id, is
fuel-bounded as a defensive cycle guard, and lists the visited ids
starting from the body itself. -/
def ancestorChain : ℕ → ℕ → List ℕ
  | 0, i => [i]
  | fuel + 1, i =>
    match parent_of i with
    | none => [i]
    | some p => i :: ancestorChain fuel p

/-- Modelled from the spec: the error taxonomy of `BodyCatalog.load`
(duplicate id, dangling parent reference, multiple or zero roots,
out-of-range orbital elements); the loader is not in the source tree. -/
inductive CatalogError where
  | duplicateId
  | danglingParent
  | rootCount
  | elementsOutOfRange
  deriving DecidableEq, Repr

/-- Validity of the orbital elements required by the spec for loading:
every `canonical_orbit` present has `a > 0` and `0 ≤ e < 1`. -/
def validElements (records : List Body) : Prop :=
  ∀ b ∈ records, ∀ o ∈ b.canonical_orbit, 0 < o.a ∧ 0 ≤ o.e ∧ o.e < 1

instance : DecidablePred validElements := fun records =>
  inferInstanceAs (Decidable (∀ b ∈ records, ∀ o ∈ b.canonical_orbit, _))

/-- Modelled from the spec: `BodyCatalog.load(records)` (not in the source
tree) fails with a `CatalogError` on a duplicate id, a dangling parent
reference, multiple or zero roots, or a `canonical_orbit` with
out-of-range `a`/`e`, and otherwise returns the records unchanged as the
immutable catalog. -/
def load (records : List Body) : Except CatalogError (List Body) :=
  if ¬ (records.map Body.id).Nodup then Except.error CatalogError.duplicateId
  else if ¬ ∀ b ∈ records, ∀ p ∈ b.parent,
      (records.any (fun c => c.id == p)) = true then
    Except.error CatalogError.danglingParent
  else if (records.filter (fun b => b.parent.isNone)).length ≠ 1 then
    Except.error CatalogError.rootCount
  else if ¬ validElements records then
    Except.error CatalogError.elementsOutOfRange
  else Except.ok records

/-- Every `canonical_orbit` stored in the catalog has `a > 0` and
`0 ≤ e < 1`; proved by checking all forty-seven records. -/
lemma solar_system_validElements : validElements SOLAR_SYSTEM_BODIES := by
  intro b hb
  fin_cases hb <;> simp <;> norm_num

/-- Parent-relative Cartesian position vector. -/
abbrev Vector3 : Type := ℝ × ℝ × ℝ

/-- Modelled from the spec: `FallbackResolver.root_offset()` (not in the
source tree) always returns the zero vector. -/
def root_offset : Vector3 := 0

/-- Modelled from the spec: `FallbackResolver.derive(designated_body_id,
sibling_positions)` (not in the source tree; the Sun record's comment in
the catalog states the convention) returns the negated sum of the supplied
sibling parent-relative positions. -/
def derive (designated_body_id : ℕ) (sibling_positions : List Vector3) :
    Vector3 :=
  -(sibling_positions.sum)

/-- Modelled from the spec: the payload of a `NumericalError` (the Kepler
solver surfaces the last residual and the iteration count). -/
structure NumericalError where
  lastResidual : ℝ
  iterations : ℕ

/-- Modelled from the spec: the six Keplerian elements as consumed by the
propagator, over the reals (angles in radians). -/
structure OrbitalElements where
  a : ℝ
  e : ℝ
  i : ℝ
  Omega : ℝ
  omega : ℝ
  M0 : ℝ

/-- Convergence tolerance of the Kepler solver, ε = 1e-10 radians. -/
noncomputable def eps : ℝ := 1e-10

/-- Modelled from the spec: the fixed iteration cap of the Kepler solver. -/
def iterationCap : ℕ := 50

/-- Modelled from the spec: the residual `E − e·sin E − M` of Kepler's
equation at a candidate eccentric anomaly `E`. -/
noncomputable def keplerResidual (e M E : ℝ) : ℝ :=
  E - e * Real.sin E - M

/-- Modelled from the spec: one Newton-Raphson step for Kepler's
equation. -/
noncomputable def newtonStep (e M E : ℝ) : ℝ :=
  E - keplerResidual e M E / (1 - e * Real.cos E)

/-- Modelled from the spec: the Newton-Raphson loop of the Kepler solver.
At each round the residual is tested first; the current candidate is
returned once the residual is below `eps`, and exhausting the fuel (the
iteration cap) yields a `NumericalError` carrying the last residual. -/
noncomputable def solveLoop (e M : ℝ) : ℕ → ℝ → Except NumericalError ℝ
  | 0, E => Except.error ⟨|keplerResidual e M E|, iterationCap⟩
  | n + 1, E =>
    if |keplerResidual e M E| < eps then Except.ok E
    else solveLoop e M n (newtonStep e M E)

/-- Modelled from the spec: the eccentric anomaly; `e = 0` short-circuits
the solve with `E = M` exactly and no iteration, otherwise Newton-Raphson
runs seeded with `E0 = M` under the iteration cap. -/
noncomputable def eccentricAnomaly (e M : ℝ) : Except NumericalError ℝ :=
  if e = 0 then Except.ok M else solveLoop e M iterationCap M

/-- Modelled from the spec: mean motion `n = √(μ/a³)` from the semi-major
axis and the caller-supplied gravitational parameter. -/
noncomputable def meanMotion (gm a : ℝ) : ℝ :=
  Real.sqrt (gm / a ^ 3)

/-- Modelled from the spec: normalization of an angle to `[0, 2π)`. -/
noncomputable def normalizeAngle (x : ℝ) : ℝ :=
  x - ⌊x / (2 * Real.pi)⌋ * (2 * Real.pi)

/-- Modelled from the spec: the mean anomaly at the query time,
`M = M0 + n·dt`, normalized to `[0, 2π)`. -/
noncomputable def meanAnomalyAt (el : OrbitalElements) (gm dt : ℝ) : ℝ :=
  normalizeAngle (el.M0 + meanMotion gm el.a * dt)

/-- Modelled from the spec: the position in the orbital plane from the
eccentric anomaly, by the standard elliptical relations
`(a(cos E − e), a√(1−e²)·sin E)`. -/
noncomputable def planarPosition (a e E : ℝ) : ℝ × ℝ :=
  (a * (Real.cos E - e), a * Real.sqrt (1 - e ^ 2) * Real.sin E)

/-- Rotation of a vector about the z-axis by an angle. -/
noncomputable def rotZ (θ : ℝ) (v : Vector3) : Vector3 :=
  (Real.cos θ * v.1 - Real.sin θ * v.2.1,
   Real.sin θ * v.1 + Real.cos θ * v.2.1,
   v.2.2)

/-- Rotation of a vector about the x-axis by an angle. -/
noncomputable def rotX (θ : ℝ) (v : Vector3) : Vector3 :=
  (v.1,
   Real.cos θ * v.2.1 - Real.sin θ * v.2.2,
   Real.sin θ * v.2.1 + Real.cos θ * v.2.2)

/-- Modelled from the spec: `KeplerPropagator.propagate(elements, gm, dt)`
(not in the source tree): mean anomaly, Kepler solve for the eccentric
anomaly, position in the orbital plane, then the successive `ω`, `i`, `Ω`
axis rotations into the parent-relative frame. -/
noncomputable def propagate (el : OrbitalElements) (gm dt : ℝ) :
    Except NumericalError Vector3 :=
  (eccentricAnomaly el.e (meanAnomalyAt el gm dt)).map (fun E =>
    let p := planarPosition el.a el.e E
    rotZ el.Omega (rotX el.i (rotZ el.omega (p.1, p.2, 0))))

/-- An element set with `e = 0.999999` whose mean anomaly at `dt = 0` is
zero; used to probe the Kepler solver at its documented stress
eccentricity. -/
noncomputable def elHighEcc : OrbitalElements :=
  ⟨1, 0.999999, 0, 0, 0, 0⟩

/-- A circular element set (`e = 0`) used as a concrete instance of the
short-circuit behaviour. -/
noncomputable def elCircular : OrbitalElements :=
  ⟨1, 0, 0, 0, 0, 0⟩

/-- A value returned by the fuel-bounded Newton loop is converged: its
residual is below the tolerance. -/
lemma solveLoop_ok_converged (e M : ℝ) :
    ∀ n E0 E, solveLoop e M n E0 = Except.ok E →
      |keplerResidual e M E| < eps := by
  intro n
  induction n with
  | zero =>
    intro E0 E h
    simp [solveLoop] at h
  | succ n ih =>
    intro E0 E h
    by_cases hc : |keplerResidual e M E0| < eps
    · rw [solveLoop, if_pos hc] at h
      cases h
      exact hc
    · rw [solveLoop, if_neg hc] at h
      exact ih _ _ h

/-- The fuel-bounded Newton loop fails exactly when no iterate within the
fuel has a residual below the tolerance. -/
lemma solveLoop_error_iff (e M : ℝ) :
    ∀ n E0, (∃ err, solveLoop e M n E0 = Except.error err) ↔
      ∀ k, k < n → eps ≤ |keplerResidual e M ((newtonStep e M)^[k] E0)| := by
  intro n
  induction n with
  | zero =>
    intro E0
    constructor
    · intro _ k hk
      exact absurd hk (Nat.not_lt_zero k)
    · intro _
      exact ⟨_, rfl⟩
  | succ n ih =>
    intro E0
    by_cases hc : |keplerResidual e M E0| < eps
    · rw [solveLoop, if_pos hc]
      constructor
      · rintro ⟨err, h⟩
        exact Except.noConfusion h
      · intro hall
        have h0 := hall 0 (Nat.succ_pos n)
        rw [Function.iterate_zero_apply] at h0
        exact absurd hc (not_lt.mpr h0)
    · rw [solveLoop, if_neg hc, ih (newtonStep e M E0)]
      constructor
      · intro h k hk
        cases k with
        | zero =>
          rw [Function.iterate_zero_apply]
          exact not_lt.mp hc
        | succ k =>
          have hkk := h k (Nat.lt_of_succ_lt_succ hk)
          rwa [Function.iterate_succ_apply]
      · intro h k hk
        have hkk := h (k + 1) (Nat.succ_lt_succ hk)
        rwa [Function.iterate_succ_apply] at hkk

/-- A converged first guess makes the loop return immediately. -/
lemma solveLoop_immediate (e M E0 : ℝ) (h : |keplerResidual e M E0| < eps)
    (n : ℕ) : solveLoop e M (n + 1) E0 = Except.ok E0 := by
  rw [solveLoop, if_pos h]

/-- The residual of the short-circuit solution `E = M` at `e = 0` is
zero. -/
lemma keplerResidual_zero_ecc (M : ℝ) : keplerResidual 0 M M = 0 := by
  simp [keplerResidual]

/-- The tolerance is positive. -/
lemma eps_pos : 0 < eps := by
  norm_num [eps]

/-- The normalized angle lies in `[0, 2π)`. -/
lemma normalizeAngle_mem (x : ℝ) :
    0 ≤ normalizeAngle x ∧ normalizeAngle x < 2 * Real.pi := by
  have h2 : (0 : ℝ) < 2 * Real.pi := by positivity
  exact ⟨Int.sub_floor_div_mul_nonneg x h2, Int.sub_floor_div_mul_lt x h2⟩

/-- C1: every record of `SOLAR_SYSTEM_BODIES` whose parent is not `None`
names the id of some record of the catalog, and following parent links
from any body reaches the root (id 0) without revisiting any body, so the
parent graph is an acyclic tree rooted at the root body and no body is its
own ancestor. -/
theorem parent_graph_is_rooted_tree :
    (∀ b ∈ SOLAR_SYSTEM_BODIES, ∀ p ∈ b.parent, idExists p = true) ∧
    (∀ b ∈ SOLAR_SYSTEM_BODIES,
      (ancestorChain SOLAR_SYSTEM_BODIES.length b.id).getLast? = some 0 ∧
      (ancestorChain SOLAR_SYSTEM_BODIES.length b.id).Nodup) := by
  decide

/-- C2: exactly one record of `SOLAR_SYSTEM_BODIES` has `parent = None` —
the root, id 0, the Solar System Barycenter — so the spec's `root()`
selects exactly that body; the root has no entry in `PARENT_MAP` while
every other body does. -/
theorem unique_root_and_parent_map_domain :
    rootRecords.length = 1 ∧
    rootRecords.map Body.id = [0] ∧
    rootRecords.map Body.name = ["Solar System Barycenter"] ∧
    parent_of 0 = none ∧
    (∀ b ∈ SOLAR_SYSTEM_BODIES, b.id ≠ 0 → (parent_of b.id).isSome = true)
    := by
  decide

/-- C3: the root's direct children are the Sun (id 10) and the nine
planetary-system barycenters (ids 1–9); among them exactly the Sun lacks a
`canonical_orbit` while every sibling carries one, and in the whole
catalog only the root and the Sun lack `canonical_orbit`. -/
theorem sun_sole_fallback_among_root_children :
    ((SOLAR_SYSTEM_BODIES.filter (fun b => b.parent == some 0)).map Body.id)
      = [10, 1, 2, 3, 4, 5, 6, 7, 8, 9] ∧
    (((SOLAR_SYSTEM_BODIES.filter (fun b => b.parent == some 0)).filter
        (fun b => b.canonical_orbit.isNone)).map Body.id) = [10] ∧
    (∀ b ∈ SOLAR_SYSTEM_BODIES, b.parent = some 0 → b.id ≠ 10 →
      b.canonical_orbit.isSome = true) ∧
    ((SOLAR_SYSTEM_BODIES.filter (fun b => b.canonical_orbit.isNone)).map
      Body.id) = [0, 10] := by
  decide

/-- C4: every `canonical_orbit` bundle in `SOLAR_SYSTEM_BODIES` satisfies
`a > 0` and `0 ≤ e < 1`, including Nereid (id 803) with `e = 0.751`, so the
spec's `BodyCatalog.load` accepts this catalog without a `CatalogError`. -/
theorem canonical_orbit_elements_in_range :
    validElements SOLAR_SYSTEM_BODIES ∧
    (∀ b ∈ SOLAR_SYSTEM_BODIES, b.id = 803 →
      ∀ o ∈ b.canonical_orbit, o.e = 0.751) ∧
    load SOLAR_SYSTEM_BODIES = Except.ok SOLAR_SYSTEM_BODIES := by
  have h1 : (SOLAR_SYSTEM_BODIES.map Body.id).Nodup := by decide
  have h2 : ∀ b ∈ SOLAR_SYSTEM_BODIES, ∀ p ∈ b.parent,
      (SOLAR_SYSTEM_BODIES.any (fun c => c.id == p)) = true := by decide
  have h3 : ¬ ((SOLAR_SYSTEM_BODIES.filter
      (fun b => b.parent.isNone)).length ≠ 1) := by decide
  refine ⟨solar_system_validElements, ?_, ?_⟩
  · intro b hb h803 o ho
    fin_cases hb <;> simp_all <;> (subst ho; rfl)
  · simp only [load]
    rw [if_neg (not_not_intro h1), if_neg (not_not_intro h2), if_neg h3,
      if_neg (not_not_intro solar_system_validElements)]

/-- C5: `FallbackResolver.derive` returns exactly the negation of the
vector sum of the supplied sibling positions, so the sum of all of the
root's direct children's resolved parent-relative positions — the
siblings together with the derived body — is the zero vector at any
epoch. -/
theorem derive_negated_sum_balances (designated_body_id : ℕ)
    (sibling_positions : List Vector3) :
    derive designated_body_id sibling_positions
      = -(sibling_positions.sum) ∧
    (sibling_positions ++ [derive designated_body_id sibling_positions]).sum
      = 0 := by
  refine ⟨rfl, ?_⟩
  simp [derive]

/-- C6 (amended): the Kepler solver returns a value only when its residual
is below ε = 1e-10, and it yields a `NumericalError` exactly when every
iterate within the cap of 50 has residual at least ε; `propagate` never
surfaces an unconverged eccentric anomaly.  (The original claim that every
element set with `e = 0.999999` errors is refuted by the
counterexample.) -/
theorem kepler_solver_never_unconverged (e M E0 : ℝ) :
    (∀ E, solveLoop e M iterationCap E0 = Except.ok E →
      |keplerResidual e M E| < eps) ∧
    ((∃ err, solveLoop e M iterationCap E0 = Except.error err) ↔
      ∀ k, k < iterationCap →
        eps ≤ |keplerResidual e M ((newtonStep e M)^[k] E0)|) ∧
    (∀ el gm dt v, propagate el gm dt = Except.ok v →
      ∃ E, eccentricAnomaly el.e (meanAnomalyAt el gm dt) = Except.ok E ∧
        |keplerResidual el.e (meanAnomalyAt el gm dt) E| < eps) := by
  refine ⟨fun E h => solveLoop_ok_converged e M iterationCap E0 E h,
    solveLoop_error_iff e M iterationCap E0, ?_⟩
  intro el gm dt v hv
  rcases hE : eccentricAnomaly el.e (meanAnomalyAt el gm dt) with err | E
  · rw [propagate, hE] at hv
    exact Except.noConfusion hv
  · refine ⟨E, rfl, ?_⟩
    by_cases he : el.e = 0
    · rw [eccentricAnomaly, if_pos he] at hE
      cases hE
      rw [he, keplerResidual_zero_ecc]
      simpa using eps_pos
    · rw [eccentricAnomaly, if_neg he] at hE
      exact solveLoop_ok_converged _ _ _ _ _ hE

/-- C6 counterexample: the element set `elHighEcc` has `e = 0.999999`, yet
`propagate` under the iteration cap of 50 returns a position (the mean
anomaly is 0 and the seed `E0 = M` is already converged), not a
`NumericalError`. -/
theorem propagate_high_ecc_returns_position :
    elHighEcc.e = 0.999999 ∧ (propagate elHighEcc 1 0).isOk = true := by
  refine ⟨rfl, ?_⟩
  have hM : meanAnomalyAt elHighEcc 1 0 = 0 := by
    simp [meanAnomalyAt, elHighEcc, normalizeAngle]
  have he : (elHighEcc.e : ℝ) ≠ 0 := by norm_num [elHighEcc]
  have hres : |keplerResidual elHighEcc.e 0 0| < eps := by
    simp [keplerResidual, elHighEcc, eps]
    norm_num
  have h50 : iterationCap = 49 + 1 := rfl
  have hecc : eccentricAnomaly elHighEcc.e (meanAnomalyAt elHighEcc 1 0)
      = Except.ok 0 := by
    rw [hM, eccentricAnomaly, if_neg he, h50]
    exact solveLoop_immediate elHighEcc.e 0 0 hres 49
  rw [propagate, hecc]
  rfl

/-- C7: with `e = 0` the propagator short-circuits the Kepler solve, the
eccentric anomaly is exactly the normalized mean anomaly `M` with no
iteration, the in-plane position is `a·(cos M, sin M)` — whose angle from
periapsis is `M` — the returned position is that vector carried through
the ω, i, Ω rotations, and `M` lies in `[0, 2π)`. -/
theorem propagate_zero_ecc_angle (el : OrbitalElements) (gm dt : ℝ)
    (he : el.e = 0) (ha : 0 < el.a) :
    eccentricAnomaly el.e (meanAnomalyAt el gm dt)
      = Except.ok (meanAnomalyAt el gm dt) ∧
    planarPosition el.a el.e (meanAnomalyAt el gm dt)
      = (el.a * Real.cos (meanAnomalyAt el gm dt),
         el.a * Real.sin (meanAnomalyAt el gm dt)) ∧
    propagate el gm dt
      = Except.ok (rotZ el.Omega (rotX el.i (rotZ el.omega
          (el.a * Real.cos (meanAnomalyAt el gm dt),
           el.a * Real.sin (meanAnomalyAt el gm dt), 0)))) ∧
    0 ≤ meanAnomalyAt el gm dt ∧
    meanAnomalyAt el gm dt < 2 * Real.pi := by
  have h1 : eccentricAnomaly el.e (meanAnomalyAt el gm dt)
      = Except.ok (meanAnomalyAt el gm dt) := by
    rw [eccentricAnomaly, if_pos he]
  have h2 : planarPosition el.a el.e (meanAnomalyAt el gm dt)
      = (el.a * Real.cos (meanAnomalyAt el gm dt),
         el.a * Real.sin (meanAnomalyAt el gm dt)) := by
    rw [planarPosition, he]
    norm_num
  refine ⟨h1, h2, ?_, (normalizeAngle_mem _).1, (normalizeAngle_mem _).2⟩
  rw [propagate, h1]
  simp only [Except.map, h2]

/-- C7 witness: the short-circuit behaviour instantiated at the concrete
circular element set `elCircular` with `gm = 1` and `dt = 0`. -/
theorem propagate_zero_ecc_angle_witness :
    elCircular.e = 0 ∧ 0 < elCircular.a ∧
    (eccentricAnomaly elCircular.e (meanAnomalyAt elCircular 1 0)
      = Except.ok (meanAnomalyAt elCircular 1 0) ∧
    planarPosition elCircular.a elCircular.e (meanAnomalyAt elCircular 1 0)
      = (elCircular.a * Real.cos (meanAnomalyAt elCircular 1 0),
         elCircular.a * Real.sin (meanAnomalyAt elCircular 1 0)) ∧
    propagate elCircular 1 0
      = Except.ok (rotZ elCircular.Omega (rotX elCircular.i
          (rotZ elCircular.omega
          (elCircular.a * Real.cos (meanAnomalyAt elCircular 1 0),
           elCircular.a * Real.sin (meanAnomalyAt elCircular 1 0), 0)))) ∧
    0 ≤ meanAnomalyAt elCircular 1 0 ∧
    meanAnomalyAt elCircular 1 0 < 2 * Real.pi) :=
  ⟨rfl, by norm_num [elCircular],
    propagate_zero_ecc_angle elCircular 1 0 rfl (by norm_num [elCircular])⟩

/-- C8: the module exposes the pass-through constants with exactly the
values `SECONDS_PER_DAY = 86400.0`, `DEFAULT_EPOCH = "2025-05-11T00:00:00"`,
`DEFAULT_FRAME = "ECLIPJ2000"`, and `DEFAULT_DRAG_CUTOFF = 500000.0`
meters. -/
theorem pass_through_constants :
    SECONDS_PER_DAY = 86400 ∧
    DEFAULT_EPOCH = "2025-05-11T00:00:00" ∧
    DEFAULT_FRAME = "ECLIPJ2000" ∧
    DEFAULT_DRAG_CUTOFF = 500000 :=
  ⟨by norm_num [SECONDS_PER_DAY], rfl, rfl,
    by norm_num [DEFAULT_DRAG_CUTOFF]⟩

/-- C9: `DEFAULT_BODIES` lists the ids of every catalog record except the
root, in catalog order; the comprehension's extra disjunct admitting id 10
is redundant (filtering on `parent` presence alone yields the same list);
and `DEFAULT_BODIES` coincides with the key list of `PARENT_MAP`, hence
with its key set. -/
theorem default_bodies_characterization :
    DEFAULT_BODIES
      = (SOLAR_SYSTEM_BODIES.filter (fun b => b.id != 0)).map Body.id ∧
    DEFAULT_BODIES
      = (SOLAR_SYSTEM_BODIES.filter (fun b => b.parent.isSome)).map Body.id ∧
    DEFAULT_BODIES = PARENT_MAP.map Prod.fst := by
  decide

/-- C10: every record carries the boolean `streamed` field, and it is
`false` for exactly one body, the root (id 0); every other body, the Sun
included, has `streamed = true`. -/
theorem streamed_false_iff_root :
    ((SOLAR_SYSTEM_BODIES.filter (fun b => b.streamed == false)).map
      Body.id) = [0] ∧
    (∀ b ∈ SOLAR_SYSTEM_BODIES, (b.streamed = false ↔ b.id = 0)) := by
  decide

end SolarSystem

